import Mathlib

/-!
Verification of the Netlify relay function `netlify/functions/gemini-proxy.js`.

The handler is a single request→response translation: it validates an inbound
HTTP-like event, reads the upstream credential from the environment, calls the
upstream generative-text API once, and translates the upstream outcome into an
outbound response.  We embed the JavaScript semantics the handler relies on:

* `Json` models JavaScript values produced by `JSON.parse` (numbers restricted
  to integers; no claim depends on non-integer numerals).  Arrays and objects
  are represented with the mutually inductive `JsonList` and `JsonFields` so
  that all recursion over values is structural; `Json.arrL` and `Json.objL`
  build them from ordinary lists.
* `Json.parse` models `JSON.parse` as a fuel-based total parser returning
  `none` on invalid input (the thrown `SyntaxError` is always caught by the
  source, so `Option` suffices).
* `jsGet`, `jsTruthy`, `destructureProp`, `jsToString` model JavaScript
  property access, truthiness, object destructuring (which throws on `null`),
  and string coercion as used by template literals.
* The upstream `fetch` call is an oracle `UpstreamOutcome`: either the
  transport throws with a message, or it replies with a status and a raw body
  text (the handler reads `.text()` first and parses it itself).
* `handler` returns a `HandlerResult`: `Except.error` in its `result` field is
  an uncaught exception escaping the handler, `Except.ok` an outbound
  response; the `upstreamCalled` flag records whether `fetch` was reached.
-/

mutual

inductive Json where
  | null : Json
  | bool : Bool → Json
  | num : Int → Json
  | str : String → Json
  | arr : JsonList → Json
  | obj : JsonFields → Json

inductive JsonList where
  | nil : JsonList
  | cons : Json → JsonList → JsonList

inductive JsonFields where
  | nil : JsonFields
  | cons : String → Json → JsonFields → JsonFields

end

def JsonList.ofList : List Json → JsonList
  | [] => JsonList.nil
  | j :: rest => JsonList.cons j (JsonList.ofList rest)

def JsonFields.ofList : List (String × Json) → JsonFields
  | [] => JsonFields.nil
  | (k, v) :: rest => JsonFields.cons k v (JsonFields.ofList rest)

/-- A JSON array from a Lean list. -/
def Json.arrL (xs : List Json) : Json := Json.arr (JsonList.ofList xs)

/-- A JSON object from a Lean association list (in source order). -/
def Json.objL (fs : List (String × Json)) : Json := Json.obj (JsonFields.ofList fs)

/-- Property lookup in a JS object: later duplicate keys override earlier
ones, as with `JSON.parse` and object literals. -/
def lookupField : JsonFields → String → Option Json
  | JsonFields.nil, _ => none
  | JsonFields.cons k v rest, key =>
    match lookupField rest key with
    | some r => some r
    | none => if k = key then some v else none

/-- JS property access `v[k]` for the property names the source uses:
objects look the key up, every other value yields `undefined` (`none`).
Never applied to `null` by the handler (that would throw; the handler
models the throw separately where the source would hit it). -/
def jsGet : Json → String → Option Json
  | Json.obj fs, k => lookupField fs k
  | _, _ => none

/-- JS truthiness of a value. -/
def jsTruthyV : Json → Bool
  | Json.null => false
  | Json.bool b => b
  | Json.num n => decide (n ≠ 0)
  | Json.str s => decide (s ≠ "")
  | Json.arr _ => true
  | Json.obj _ => true

/-- JS truthiness of a possibly-`undefined` value (`none` = `undefined`). -/
def jsTruthy : Option Json → Bool
  | none => false
  | some v => jsTruthyV v

/-- `Json.null` test, used to state hypotheses about parsed values. -/
def Json.isNull : Json → Bool
  | Json.null => true
  | _ => false

/-- String test, used to state hypotheses about the `prompt` value. -/
def Json.isStr : Json → Bool
  | Json.str _ => true
  | _ => false

/-- JS object destructuring `const { k } = v` (line 37 of the source):
throws a `TypeError` when `v` is `null`, otherwise yields the property
(`none` = `undefined`; non-object primitives have no such property). -/
def destructureProp (j : Json) (k : String) : Except String (Option Json) :=
  match j with
  | Json.null =>
      Except.error ("Cannot destructure property \x27" ++ k ++ "\x27 of \x27requestBody\x27 as it is null.")
  | Json.obj fs => Except.ok (lookupField fs k)
  | _ => Except.ok none

/-! ## A model of `JSON.parse`

Fuel-based recursive-descent parser over the character list.  It accepts
JSON values built from `null`, booleans, integer numerals, strings (with
the standard escapes), arrays and objects; it rejects fractional and
exponent numerals (a modelling restriction of `Json.num : Int → Json`;
no claim depends on them).  `Json.parse s = none` models `JSON.parse`
throwing a `SyntaxError`. -/

def skipWs : List Char → List Char
  | [] => []
  | c :: cs => if c = ' ' ∨ c = '\t' ∨ c = '\n' ∨ c = '\r' then skipWs cs else c :: cs

def hexVal (c : Char) : Option Nat :=
  if '0' ≤ c ∧ c ≤ '9' then some (c.toNat - 48)
  else if 'a' ≤ c ∧ c ≤ 'f' then some (c.toNat - 87)
  else if 'A' ≤ c ∧ c ≤ 'F' then some (c.toNat - 55)
  else none

/-- Parse the characters of a JSON string literal after the opening quote;
returns the decoded characters and the input after the closing quote. -/
def pString : Nat → List Char → Option (List Char × List Char)
  | 0, _ => none
  | _, [] => none
  | fuel + 1, c :: cs =>
    if c = '"' then some ([], cs)
    else if c = '\\' then
      match cs with
      | [] => none
      | e :: cs2 =>
        if e = 'u' then
          match cs2 with
          | h1 :: h2 :: h3 :: h4 :: cs3 =>
            match hexVal h1, hexVal h2, hexVal h3, hexVal h4 with
            | some a, some b, some c3, some d =>
              match pString fuel cs3 with
              | some (s, r) => some (Char.ofNat (4096 * a + 256 * b + 16 * c3 + d) :: s, r)
              | none => none
            | _, _, _, _ => none
          | _ => none
        else
          match
            (if e = '"' then some '"'
             else if e = '\\' then some '\\'
             else if e = '/' then some '/'
             else if e = 'b' then some (Char.ofNat 8)
             else if e = 'f' then some (Char.ofNat 12)
             else if e = 'n' then some '\n'
             else if e = 'r' then some '\r'
             else if e = 't' then some '\t'
             else none : Option Char)
          with
          | some ch =>
            match pString fuel cs2 with
            | some (s, r) => some (ch :: s, r)
            | none => none
          | none => none
    else if c.toNat < 32 then none
    else
      match pString fuel cs with
      | some (s, r) => some (c :: s, r)
      | none => none

def takeDigits : List Char → List Char × List Char
  | [] => ([], [])
  | c :: cs =>
    if c.isDigit then
      match takeDigits cs with
      | (ds, r) => (c :: ds, r)
    else ([], c :: cs)

def digitsToNat (ds : List Char) : Nat :=
  ds.foldl (fun acc c => 10 * acc + (c.toNat - 48)) 0

/-- JSON numeral well-formedness at this position: no leading zero before
further digits, and (modelling restriction) no fraction or exponent part. -/
def numOk (ds : List Char) (rest : List Char) : Bool :=
  (decide (ds.length = 1) || decide (ds.head? ≠ some '0')) &&
  (match rest with
   | c :: _ => !(c = '.' ∨ c = 'e' ∨ c = 'E')
   | [] => true)

def pNumber (cs : List Char) : Option (Json × List Char) :=
  match cs with
  | '-' :: rest =>
    match takeDigits rest with
    | ([], _) => none
    | (ds, r) => if numOk ds r then some (Json.num (-(Int.ofNat (digitsToNat ds))), r) else none
  | _ =>
    match takeDigits cs with
    | ([], _) => none
    | (ds, r) => if numOk ds r then some (Json.num (Int.ofNat (digitsToNat ds)), r) else none

mutual

def pValue : Nat → List Char → Option (Json × List Char)
  | 0, _ => none
  | fuel + 1, cs =>
    match skipWs cs with
    | [] => none
    | c :: rest =>
      if c = 'n' then
        match rest with
        | 'u' :: 'l' :: 'l' :: r => some (Json.null, r)
        | _ => none
      else if c = 't' then
        match rest with
        | 'r' :: 'u' :: 'e' :: r => some (Json.bool true, r)
        | _ => none
      else if c = 'f' then
        match rest with
        | 'a' :: 'l' :: 's' :: 'e' :: r => some (Json.bool false, r)
        | _ => none
      else if c = '"' then
        match pString (rest.length + 1) rest with
        | some (s, r) => some (Json.str (String.mk s), r)
        | none => none
      else if c = '-' ∨ c.isDigit then pNumber (c :: rest)
      else if c = Char.ofNat 123 then pObjectBody fuel rest
      else if c = '[' then pArrayBody fuel rest
      else none

def pArrayBody : Nat → List Char → Option (Json × List Char)
  | 0, _ => none
  | fuel + 1, cs =>
    match skipWs cs with
    | ']' :: r => some (Json.arrL [], r)
    | cs2 =>
      match pValue fuel cs2 with
      | none => none
      | some (v, r) => pArrayRest fuel [v] r

def pArrayRest : Nat → List Json → List Char → Option (Json × List Char)
  | 0, _, _ => none
  | fuel + 1, acc, cs =>
    match skipWs cs with
    | ']' :: r => some (Json.arrL acc.reverse, r)
    | ',' :: r =>
      match pValue fuel r with
      | none => none
      | some (v, r2) => pArrayRest fuel (v :: acc) r2
    | _ => none

def pObjectBody : Nat → List Char → Option (Json × List Char)
  | 0, _ => none
  | fuel + 1, cs =>
    match skipWs cs with
    | c :: r =>
      if c = Char.ofNat 125 then some (Json.objL [], r)
      else if c = '"' then
        match pString (r.length + 1) r with
        | some (k, r2) => pObjectPair fuel [] (String.mk k) r2
        | none => none
      else none
    | [] => none

def pObjectPair : Nat → List (String × Json) → String → List Char → Option (Json × List Char)
  | 0, _, _, _ => none
  | fuel + 1, acc, key, cs =>
    match skipWs cs with
    | ':' :: r =>
      match pValue fuel r with
      | none => none
      | some (v, r2) => pObjectRest fuel ((key, v) :: acc) r2
    | _ => none

def pObjectRest : Nat → List (String × Json) → List Char → Option (Json × List Char)
  | 0, _, _ => none
  | fuel + 1, acc, cs =>
    match skipWs cs with
    | c :: r =>
      if c = Char.ofNat 125 then some (Json.objL acc.reverse, r)
      else if c = ',' then
        match skipWs r with
        | '"' :: r2 =>
          match pString (r2.length + 1) r2 with
          | some (k, r3) => pObjectPair fuel acc (String.mk k) r3
          | none => none
        | _ => none
      else none
    | [] => none

end

/-- Model of `JSON.parse`: `none` is a thrown `SyntaxError`. -/
def Json.parse (s : String) : Option Json :=
  let cs := s.toList
  match pValue (cs.length + 1) cs with
  | some (j, rest) => if skipWs rest = [] then some j else none
  | none => none

example : Json.parse "null" = some Json.null := rfl

example : Json.parse "\x7b\"prompt\":\"hi\"\x7d" =
    some (Json.objL [("prompt", Json.str "hi")]) := rfl

example : Json.parse "\x7b\"error\":\x7b\"message\":\"rate limited\"\x7d\x7d" =
    some (Json.objL [("error", Json.objL [("message", Json.str "rate limited")])]) := rfl

example : Json.parse "\x7b\"candidates\":[1,-2,true]\x7d" =
    some (Json.objL [("candidates", Json.arrL [Json.num 1, Json.num (-2), Json.bool true])]) := rfl

example : Json.parse "<html>" = none := rfl

example : Json.parse "\x7b\"prompt\":5\x7d" = some (Json.objL [("prompt", Json.num 5)]) := rfl

example : Json.parse " \x7b \"a\" : \"b\\n\" , \"a\" : [] \x7d " =
    some (Json.objL [("a", Json.str "b\n"), ("a", Json.arrL [])]) := rfl

/-! ## JS string coercion and `JSON.stringify`

`jsToString` models `String(v)` as performed by a template literal:
strings stay, numbers print, `null` prints `"null"`, objects print
`"[object Object]"`, arrays join their elements with `","` (a `null`
element joins as the empty string). -/

mutual

def jsToString : Json → String
  | Json.null => "null"
  | Json.bool b => cond b "true" "false"
  | Json.num n => toString n
  | Json.str s => s
  | Json.obj _ => "[object Object]"
  | Json.arr xs => jsJoinElems xs

def jsJoinElems : JsonList → String
  | JsonList.nil => ""
  | JsonList.cons Json.null JsonList.nil => ""
  | JsonList.cons j JsonList.nil => jsToString j
  | JsonList.cons Json.null rest => "," ++ jsJoinElems rest
  | JsonList.cons j rest => jsToString j ++ "," ++ jsJoinElems rest

end

def hexDigit (n : Nat) : Char :=
  if n < 10 then Char.ofNat (48 + n) else Char.ofNat (87 + n)

/-- `JSON.stringify` escaping of one character of a string literal. -/
def escChar (c : Char) : String :=
  if c = '"' then "\\\""
  else if c = '\\' then "\\\\"
  else if c = Char.ofNat 8 then "\\b"
  else if c = Char.ofNat 12 then "\\f"
  else if c = '\n' then "\\n"
  else if c = '\r' then "\\r"
  else if c = '\t' then "\\t"
  else if c.toNat < 32 then "\\u00" ++ String.mk [hexDigit (c.toNat / 16), hexDigit (c.toNat % 16)]
  else String.singleton c

def quoteString (s : String) : String :=
  "\"" ++ String.join (s.toList.map escChar) ++ "\""

mutual

/-- Model of `JSON.stringify` on parsed values (the source never passes
`undefined` to it at top level; an `undefined`-valued object property is
modelled by omitting the property, which is what `JSON.stringify` does). -/
def Json.stringify : Json → String
  | Json.null => "null"
  | Json.bool b => cond b "true" "false"
  | Json.num n => toString n
  | Json.str s => quoteString s
  | Json.arr xs => "[" ++ JsonList.stringifyElems xs ++ "]"
  | Json.obj fs => "\x7b" ++ JsonFields.stringifyFields fs ++ "\x7d"

def JsonList.stringifyElems : JsonList → String
  | JsonList.nil => ""
  | JsonList.cons j JsonList.nil => Json.stringify j
  | JsonList.cons j rest => Json.stringify j ++ "," ++ JsonList.stringifyElems rest

def JsonFields.stringifyFields : JsonFields → String
  | JsonFields.nil => ""
  | JsonFields.cons k v JsonFields.nil => quoteString k ++ ":" ++ Json.stringify v
  | JsonFields.cons k v rest =>
      quoteString k ++ ":" ++ Json.stringify v ++ "," ++ JsonFields.stringifyFields rest

end

example : Json.stringify (Json.objL [("error", Json.str "x"), ("details", Json.arrL [Json.num 1, Json.null])]) =
    "\x7b\"error\":\"x\",\"details\":[1,null]\x7d" := rfl

example : jsToString (Json.arrL [Json.num 1, Json.null, Json.str "x"]) = "1,,x" := rfl

/-! ## Substring occurrence (for the credential-leak claims) -/

def isPrefixL : List Char → List Char → Bool
  | [], _ => true
  | _ :: _, [] => false
  | a :: as, b :: bs => (a == b) && isPrefixL as bs

def containsSub : List Char → List Char → Bool
  | needle, [] => needle.isEmpty
  | needle, c :: rest => isPrefixL needle (c :: rest) || containsSub needle rest

/-- `substrB needle hay` is true when `needle` occurs contiguously in `hay`. -/
def substrB (needle hay : String) : Bool := containsSub needle.toList hay.toList

example : substrB "SECRET" "x SECRET y" = true := rfl
example : substrB "SECRET" "x SECRE y" = false := rfl

/-! ## The relay handler (`exports.handler`, lines 14-115 of the source) -/

/-- The inbound Netlify event (the fields the handler reads). -/
structure Event where
  httpMethod : String
  body : String

/-- The outcome of the single upstream `fetch`: either the transport throws
(network error, timeout, DNS failure — carrying the thrown error's
`message`), or it replies with an HTTP status and a raw body text. -/
inductive UpstreamOutcome where
  | throw (message : String)
  | reply (status : Nat) (text : String)

/-- An outbound response.  The source serializes `body` with
`JSON.stringify`; we keep the pre-serialization value and apply
`Json.stringify` where a claim speaks about the body string. -/
structure Response where
  statusCode : Nat
  headers : List (String × String)
  body : Json

/-- The result of one invocation: `Except.error m` is an exception escaping
the handler uncaught (the async function rejects), `Except.ok` an outbound
response.  `upstreamCalled` records whether the `fetch` was reached. -/
structure HandlerResult where
  result : Except String Response
  upstreamCalled : Bool

def ctJson : List (String × String) := [("Content-Type", "application/json")]

def errorBody (msg : String) : Json := Json.objL [("error", Json.str msg)]

/-- `!GEMINI_API_KEY`: the credential is falsy when the variable is unset
(`none` = `undefined`) or set to the empty string. -/
def falsyKey : Option String → Bool
  | none => true
  | some s => s == ""

/-- `geminiResponse.ok` per the Fetch standard: status in 200–299. -/
def responseOk (status : Nat) : Bool :=
  decide (200 ≤ status) && decide (status ≤ 299)

/-- `geminiData.error?.message` (line 93): optional chaining yields
`undefined` when `error` is absent or `null`; property access on other
non-objects yields `undefined`.  (`geminiData` itself being `null` throws
instead and is handled separately in `tryBlock`.) -/
def errMessageVal (j : Json) : Option Json :=
  match jsGet j "error" with
  | none => none
  | some Json.null => none
  | some v => jsGet v "message"

/-- `geminiData.error?.message || `Gemini API responded with status ${status}``:
the `||` falls through on any falsy message, and the template literal
coerces a truthy non-string message with `String(·)`. -/
def upstreamErrorMessage (geminiData : Json) (status : Nat) : String :=
  match errMessageVal geminiData with
  | some v =>
    if jsTruthyV v then jsToString v
    else "Gemini API responded with status " ++ toString status
  | none => "Gemini API responded with status " ++ toString status

/-- The body `{ error: "Gemini API Error: <msg>", details: geminiData.error }`
of the forwarded upstream error (lines 95-99).  When `geminiData.error` is
absent, `details` is `undefined` and `JSON.stringify` omits the property. -/
def upstreamErrBody (geminiData : Json) (status : Nat) : Json :=
  match jsGet geminiData "error" with
  | some errVal =>
      Json.objL [("error", Json.str ("Gemini API Error: " ++ upstreamErrorMessage geminiData status)),
                 ("details", errVal)]
  | none =>
      Json.objL [("error", Json.str ("Gemini API Error: " ++ upstreamErrorMessage geminiData status))]

/-- The body of the `try` block around the upstream call (lines 66-105):
`Except.error` is an exception caught by the `catch` on line 107.  The only
throw sites are the transport itself and `geminiData.error` when
`geminiData` is `null` (reading a property of `null` throws a `TypeError`
inside the `try`). -/
def tryBlock (upstream : UpstreamOutcome) : Except String Response :=
  match upstream with
  | UpstreamOutcome.throw m => Except.error m
  | UpstreamOutcome.reply status text =>
    match Json.parse text with
    | none =>
        Except.ok ⟨502, ctJson,
          Json.objL [("error", Json.str "Invalid response from upstream API. Could not parse JSON."),
                     ("details", Json.str text)]⟩
    | some geminiData =>
      if responseOk status = false then
        if Json.isNull geminiData = true then
          Except.error "Cannot read properties of null (reading \x27error\x27)"
        else
          Except.ok ⟨status, ctJson, upstreamErrBody geminiData status⟩
      else
        Except.ok ⟨200, ctJson, geminiData⟩

/-- The `catch` on line 107: any exception thrown inside the `try` becomes a
500 response embedding the error message. -/
def catchBlock : Except String Response → Response
  | Except.ok r => r
  | Except.error m => ⟨500, ctJson, errorBody ("Proxy function execution error: " ++ m)⟩

/-- `chatHistory` (line 59): `[{ role: "user", parts: [{ text: prompt }] }]`. -/
def chatHistory (prompt : String) : Json :=
  Json.arrL [Json.objL [("role", Json.str "user"),
                        ("parts", Json.arrL [Json.objL [("text", Json.str prompt)]])]]

/-- `payload` (line 60): `{ contents: chatHistory }`. -/
def payload (prompt : String) : Json := Json.objL [("contents", chatHistory prompt)]

/-- `geminiApiUrl` (line 61): the upstream URL embedding the credential as a
query parameter.  It is sent only to the upstream transport; in this model
the upstream outcome is an oracle, so the URL is not otherwise observable. -/
def geminiApiUrl (key : String) : String :=
  "https://generativelanguage.googleapis.com/v1beta/models/gemini-2.0-flash:generateContent?key=" ++ key

/-- The handler (lines 14-115).  `apiKey` is `process.env.GEMINI_API_KEY`,
`upstream` the oracle for the single `fetch`.  Control flow, in source
order: method check (line 16), `JSON.parse(event.body)` in a `try` (lines
26-35), `const { prompt } = requestBody` outside any `try` (line 37, throws
on `null`), `if (!prompt)` (line 39), `if (!GEMINI_API_KEY)` (line 50),
the log line `prompt.substring(0, 100)` (line 63, throws a `TypeError`
when `prompt` is a truthy non-string), then the upstream `try`/`catch`. -/
def handler (apiKey : Option String) (upstream : UpstreamOutcome) (event : Event) : HandlerResult :=
  if event.httpMethod ≠ "POST" then
    ⟨Except.ok ⟨405, [("Content-Type", "application/json"), ("Allow", "POST")],
        errorBody "Method Not Allowed. Please use POST."⟩, false⟩
  else
    match Json.parse event.body with
    | none =>
        ⟨Except.ok ⟨400, ctJson, errorBody "Bad request: Could not parse JSON body."⟩, false⟩
    | some requestBody =>
      match destructureProp requestBody "prompt" with
      | Except.error m => ⟨Except.error m, false⟩
      | Except.ok prompt =>
        if jsTruthy prompt = false then
          ⟨Except.ok ⟨400, ctJson,
              errorBody "Bad request: \x27prompt\x27 is missing in the request body."⟩, false⟩
        else if falsyKey apiKey then
          ⟨Except.ok ⟨500, ctJson,
              errorBody "Server configuration error: API key is missing."⟩, false⟩
        else
          match prompt with
          | some (Json.str _) => ⟨Except.ok (catchBlock (tryBlock upstream)), true⟩
          | _ => ⟨Except.error "prompt.substring is not a function", false⟩

/-- The outbound status code of a result, when the handler returned rather
than threw. -/
def statusOf (h : HandlerResult) : Option Nat :=
  match h.result with
  | Except.ok r => some r.statusCode
  | Except.error _ => none

/-- The serialized outbound body string, when the handler returned. -/
def responseBodyString (h : HandlerResult) : Option String :=
  match h.result with
  | Except.ok r => some (Json.stringify r.body)
  | Except.error _ => none

/-- Whether the credential occurs as a substring of the serialized outbound
response body. -/
def credentialLeaks (k : String) (h : HandlerResult) : Bool :=
  match responseBodyString h with
  | some s => substrB k s
  | none => false

example :
    handler (some "key") (UpstreamOutcome.reply 200 "\x7b\"candidates\":[]\x7d")
      ⟨"POST", "\x7b\"prompt\":\"hi\"\x7d"⟩ =
    ⟨Except.ok ⟨200, ctJson, Json.objL [("candidates", Json.arrL [])]⟩, true⟩ := rfl

example :
    handler (some "key") (UpstreamOutcome.reply 200 "ok") ⟨"GET", ""⟩ =
    ⟨Except.ok ⟨405, [("Content-Type", "application/json"), ("Allow", "POST")],
        errorBody "Method Not Allowed. Please use POST."⟩, false⟩ := rfl

example :
    (handler (some "key") (UpstreamOutcome.reply 200 "\x7b\x7d") ⟨"POST", "null"⟩).result =
    Except.error "Cannot destructure property \x27prompt\x27 of \x27requestBody\x27 as it is null." := rfl

example :
    handler (some "key") (UpstreamOutcome.reply 429 "\x7b\"error\":\x7b\"message\":\"rate limited\"\x7d\x7d")
      ⟨"POST", "\x7b\"prompt\":\"hi\"\x7d"⟩ =
    ⟨Except.ok ⟨429, ctJson,
        Json.objL [("error", Json.str "Gemini API Error: rate limited"),
                   ("details", Json.objL [("message", Json.str "rate limited")])]⟩, true⟩ := rfl

/-- A named field of the outbound body, when the handler returned. -/
def bodyField (h : HandlerResult) (key : String) : Option Json :=
  match h.result with
  | Except.ok r => jsGet r.body key
  | Except.error _ => none

/-! ## Helper lemmas -/

/-- Whenever the upstream call is reached, the result is exactly the
`try`/`catch` translation of the upstream outcome. -/
theorem reach_upstream (k : Option String) (u : UpstreamOutcome) (e : Event)
    (h : (handler k u e).upstreamCalled = true) :
    (handler k u e).result = Except.ok (catchBlock (tryBlock u)) := by
  unfold handler at h ⊢
  by_cases hm : e.httpMethod ≠ "POST"
  · rw [if_pos hm] at h
    simp at h
  · rw [if_neg hm] at h ⊢
    rcases hb : Json.parse e.body with _ | rb
    · rw [hb] at h
      simp at h
    · rw [hb] at h
      dsimp only at h ⊢
      rcases hd : destructureProp rb "prompt" with m | p
      · rw [hd] at h
        simp at h
      · rw [hd] at h
        dsimp only at h ⊢
        by_cases ht : jsTruthy p = false
        · rw [if_pos ht] at h
          simp at h
        · rw [if_neg ht] at h ⊢
          by_cases hk : falsyKey k = true
          · rw [if_pos hk] at h
            simp at h
          · rw [if_neg hk] at h ⊢
            rcases p with _ | v
            · simp at h
            · cases v with
              | null => simp at h
              | bool b => simp at h
              | num n => simp at h
              | str s => rfl
              | arr xs => simp at h
              | obj fs => simp at h

/-- When the credential is falsy, the upstream call is never reached. -/
theorem key_falsy_no_upstream (k : Option String) (u : UpstreamOutcome) (e : Event)
    (hk : falsyKey k = true) : (handler k u e).upstreamCalled = false := by
  unfold handler
  by_cases hm : e.httpMethod ≠ "POST"
  · rw [if_pos hm]
  · rw [if_neg hm]
    rcases Json.parse e.body with _ | rb
    · rfl
    · dsimp only
      rcases destructureProp rb "prompt" with m | p
      · rfl
      · dsimp only
        by_cases ht : jsTruthy p = false
        · rw [if_pos ht]
        · rw [if_neg ht, if_pos hk]

/-- Every response produced by the upstream `try`/`catch` carries the
JSON content type. -/
theorem ct_mem_catch_try (u : UpstreamOutcome) :
    ("Content-Type", "application/json") ∈ (catchBlock (tryBlock u)).headers := by
  cases u with
  | throw m => simp [tryBlock, catchBlock, ctJson]
  | reply s t =>
    rcases hp : Json.parse t with _ | j
    · simp [tryBlock, hp, catchBlock, ctJson]
    · by_cases hok : responseOk s = false
      · by_cases hnull : Json.isNull j = true
        · simp [tryBlock, hp, hok, hnull, catchBlock, ctJson]
        · simp [tryBlock, hp, hok, hnull, catchBlock, ctJson]
      · simp [tryBlock, hp, hok, catchBlock, ctJson]

/-! ## The claims -/

/-- Claim C1: for every upstream reply whose body is not valid JSON, the
handler returns an outbound response with statusCode 502 and a body whose
`details` field equals the raw upstream text received. -/
theorem upstream_nonjson_502_details_raw (k : Option String) (e : Event) (s : Nat) (t : String)
    (hcall : (handler k (UpstreamOutcome.reply s t) e).upstreamCalled = true)
    (hparse : Json.parse t = none) :
    statusOf (handler k (UpstreamOutcome.reply s t) e) = some 502 ∧
    bodyField (handler k (UpstreamOutcome.reply s t) e) "details" = some (Json.str t) := by
  have hr := reach_upstream k (UpstreamOutcome.reply s t) e hcall
  have hcat : catchBlock (tryBlock (UpstreamOutcome.reply s t)) =
      ⟨502, ctJson,
        Json.objL [("error", Json.str "Invalid response from upstream API. Could not parse JSON."),
                   ("details", Json.str t)]⟩ := by
    unfold tryBlock
    dsimp only
    rw [hparse]
    rfl
  constructor
  · unfold statusOf
    rw [hr, hcat]
  · unfold bodyField
    rw [hr, hcat]
    rfl

theorem upstream_nonjson_502_details_raw_witness :
    statusOf (handler (some "key") (UpstreamOutcome.reply 200 "<html>")
      ⟨"POST", "\x7b\"prompt\":\"hi\"\x7d"⟩) = some 502 ∧
    bodyField (handler (some "key") (UpstreamOutcome.reply 200 "<html>")
      ⟨"POST", "\x7b\"prompt\":\"hi\"\x7d"⟩) "details" = some (Json.str "<html>") :=
  upstream_nonjson_502_details_raw (some "key") ⟨"POST", "\x7b\"prompt\":\"hi\"\x7d"⟩ 200 "<html>"
    rfl rfl

/-- Claim C2 (counterexample): when the upstream echoes the credential back
(here as a non-JSON reply body), the 502 diagnostic body contains the
credential as a substring, so the claim as stated is false. -/
theorem credential_echoed_in_outbound_body :
    credentialLeaks "SECRET"
      (handler (some "SECRET") (UpstreamOutcome.reply 200 "SECRET")
        ⟨"POST", "\x7b\"prompt\":\"hi\"\x7d"⟩) = true := rfl

/-- Claim C2 (amended): the handler itself never inserts the credential:
for a fixed inbound event and a fixed upstream outcome, the outbound result
is identical for any two non-empty credential values (the credential flows
only into the upstream URL). -/
theorem credential_noninterference (k1 k2 : String) (u : UpstreamOutcome) (e : Event)
    (h1 : k1 ≠ "") (h2 : k2 ≠ "") :
    handler (some k1) u e = handler (some k2) u e := by
  have e1 : falsyKey (some k1) = false := by simp [falsyKey]; exact h1
  have e2 : falsyKey (some k2) = false := by simp [falsyKey]; exact h2
  unfold handler
  rw [e1, e2]

theorem credential_noninterference_witness :
    handler (some "keyA") (UpstreamOutcome.reply 200 "ok") ⟨"POST", "x"⟩ =
    handler (some "keyB") (UpstreamOutcome.reply 200 "ok") ⟨"POST", "x"⟩ :=
  credential_noninterference "keyA" "keyB" (UpstreamOutcome.reply 200 "ok") ⟨"POST", "x"⟩
    (by decide) (by decide)

/-- Claim C3 (code bug): the body `"null"` is valid JSON, yet the handler
throws an uncaught `TypeError` (the destructuring on line 37 sits outside
every `try`), instead of mapping the error to a status and envelope; the
upstream is never called. -/
theorem null_body_uncaught_typeerror :
    Json.parse "null" = some Json.null ∧
    (handler (some "key") (UpstreamOutcome.reply 200 "\x7b\"candidates\":[]\x7d")
      ⟨"POST", "null"⟩).result =
      Except.error "Cannot destructure property \x27prompt\x27 of \x27requestBody\x27 as it is null." ∧
    (handler (some "key") (UpstreamOutcome.reply 200 "\x7b\"candidates\":[]\x7d")
      ⟨"POST", "null"⟩).upstreamCalled = false :=
  ⟨rfl, rfl, rfl⟩

/-- Claim C4 (counterexample): an upstream error reply whose parseable JSON
body is `null` is not forwarded with the upstream status; reading
`.error` of `null` throws inside the `try` and the handler answers 500. -/
theorem upstream_error_null_body_not_forwarded :
    Json.parse "null" = some Json.null ∧
    responseOk 404 = false ∧
    statusOf (handler (some "key") (UpstreamOutcome.reply 404 "null")
      ⟨"POST", "\x7b\"prompt\":\"hi\"\x7d"⟩) = some 500 ∧
    statusOf (handler (some "key") (UpstreamOutcome.reply 404 "null")
      ⟨"POST", "\x7b\"prompt\":\"hi\"\x7d"⟩) ≠ some 404 :=
  ⟨rfl, rfl, rfl, by decide⟩

/-- Claim C4 (amended): for every upstream reply with a parseable JSON body
other than `null` and a status outside 200–299, the handler forwards the
upstream status; the body's `error` field is "Gemini API Error: " followed
by the upstream `error.message` when that is truthy (else a generic message
embedding the status), and its `details` field is the upstream `error`
value exactly when that property is present. -/
theorem upstream_error_status_forwarded (k : Option String) (e : Event) (s : Nat) (t : String)
    (j : Json)
    (hcall : (handler k (UpstreamOutcome.reply s t) e).upstreamCalled = true)
    (hparse : Json.parse t = some j)
    (hnn : Json.isNull j = false)
    (hbad : responseOk s = false) :
    statusOf (handler k (UpstreamOutcome.reply s t) e) = some s ∧
    bodyField (handler k (UpstreamOutcome.reply s t) e) "error" =
      some (Json.str ("Gemini API Error: " ++ upstreamErrorMessage j s)) ∧
    bodyField (handler k (UpstreamOutcome.reply s t) e) "details" = jsGet j "error" := by
  have hr := reach_upstream k (UpstreamOutcome.reply s t) e hcall
  have hcat : catchBlock (tryBlock (UpstreamOutcome.reply s t)) = ⟨s, ctJson, upstreamErrBody j s⟩ := by
    unfold tryBlock
    dsimp only
    rw [hparse]
    dsimp only
    rw [if_pos hbad, if_neg (by simp [hnn])]
    rfl
  refine ⟨?_, ?_, ?_⟩
  · unfold statusOf
    rw [hr, hcat]
  · unfold bodyField
    rw [hr, hcat]
    dsimp only
    unfold upstreamErrBody
    rcases jsGet j "error" with _ | ev
    · rfl
    · rfl
  · unfold bodyField
    rw [hr, hcat]
    dsimp only
    unfold upstreamErrBody
    rcases jsGet j "error" with _ | ev
    · rfl
    · rfl

theorem upstream_error_status_forwarded_witness :
    statusOf (handler (some "key")
      (UpstreamOutcome.reply 429 "\x7b\"error\":\x7b\"message\":\"rate limited\"\x7d\x7d")
      ⟨"POST", "\x7b\"prompt\":\"hi\"\x7d"⟩) = some 429 ∧
    bodyField (handler (some "key")
      (UpstreamOutcome.reply 429 "\x7b\"error\":\x7b\"message\":\"rate limited\"\x7d\x7d")
      ⟨"POST", "\x7b\"prompt\":\"hi\"\x7d"⟩) "error" =
      some (Json.str ("Gemini API Error: " ++
        upstreamErrorMessage
          (Json.objL [("error", Json.objL [("message", Json.str "rate limited")])]) 429)) ∧
    bodyField (handler (some "key")
      (UpstreamOutcome.reply 429 "\x7b\"error\":\x7b\"message\":\"rate limited\"\x7d\x7d")
      ⟨"POST", "\x7b\"prompt\":\"hi\"\x7d"⟩) "details" =
      jsGet (Json.objL [("error", Json.objL [("message", Json.str "rate limited")])]) "error" :=
  upstream_error_status_forwarded (some "key") ⟨"POST", "\x7b\"prompt\":\"hi\"\x7d"⟩ 429
    "\x7b\"error\":\x7b\"message\":\"rate limited\"\x7d\x7d"
    (Json.objL [("error", Json.objL [("message", Json.str "rate limited")])]) rfl rfl rfl rfl

/-- Claim C5: for every upstream reply with a parseable JSON body and a
status in 200–299, the handler returns 200 with the JSON content type and
the full parsed upstream value as body, unmodified. -/
theorem upstream_success_forwarded_verbatim (k : Option String) (e : Event) (s : Nat) (t : String)
    (j : Json)
    (hcall : (handler k (UpstreamOutcome.reply s t) e).upstreamCalled = true)
    (hparse : Json.parse t = some j)
    (hok : responseOk s = true) :
    (handler k (UpstreamOutcome.reply s t) e).result = Except.ok ⟨200, ctJson, j⟩ := by
  have hr := reach_upstream k (UpstreamOutcome.reply s t) e hcall
  have hcat : catchBlock (tryBlock (UpstreamOutcome.reply s t)) = ⟨200, ctJson, j⟩ := by
    unfold tryBlock
    dsimp only
    rw [hparse]
    dsimp only
    rw [if_neg (by simp [hok])]
    rfl
  rw [hr, hcat]

theorem upstream_success_forwarded_verbatim_witness :
    (handler (some "key") (UpstreamOutcome.reply 200 "\x7b\"candidates\":[]\x7d")
      ⟨"POST", "\x7b\"prompt\":\"hi\"\x7d"⟩).result =
      Except.ok ⟨200, ctJson, Json.objL [("candidates", Json.arrL [])]⟩ :=
  upstream_success_forwarded_verbatim (some "key") ⟨"POST", "\x7b\"prompt\":\"hi\"\x7d"⟩ 200
    "\x7b\"candidates\":[]\x7d" (Json.objL [("candidates", Json.arrL [])]) rfl rfl rfl

/-- Claim C6: with a POST request, a valid JSON body and a non-empty string
prompt, an absent (falsy) credential yields 500 with an error body; and a
falsy credential means the upstream is never called, on any input. -/
theorem missing_credential_500_before_upstream (k : Option String) (u : UpstreamOutcome)
    (e : Event) (rb : Json) (p : String)
    (hm : e.httpMethod = "POST")
    (hb : Json.parse e.body = some rb)
    (hd : destructureProp rb "prompt" = Except.ok (some (Json.str p)))
    (hp : p ≠ "")
    (hk : falsyKey k = true) :
    handler k u e =
      ⟨Except.ok ⟨500, ctJson, errorBody "Server configuration error: API key is missing."⟩,
        false⟩ ∧
    ∀ (u2 : UpstreamOutcome) (e2 : Event), (handler k u2 e2).upstreamCalled = false := by
  constructor
  · unfold handler
    rw [if_neg (fun hc => hc hm)]
    rw [hb]
    dsimp only
    rw [hd]
    dsimp only
    rw [if_neg (by simp [jsTruthy, jsTruthyV, hp])]
    rw [if_pos hk]
  · intro u2 e2
    exact key_falsy_no_upstream k u2 e2 hk

theorem missing_credential_500_before_upstream_witness :
    handler none (UpstreamOutcome.reply 200 "\x7b\x7d") ⟨"POST", "\x7b\"prompt\":\"hi\"\x7d"⟩ =
      ⟨Except.ok ⟨500, ctJson, errorBody "Server configuration error: API key is missing."⟩,
        false⟩ ∧
    ∀ (u2 : UpstreamOutcome) (e2 : Event), (handler none u2 e2).upstreamCalled = false :=
  missing_credential_500_before_upstream none (UpstreamOutcome.reply 200 "\x7b\x7d")
    ⟨"POST", "\x7b\"prompt\":\"hi\"\x7d"⟩ (Json.objL [("prompt", Json.str "hi")]) "hi"
    rfl rfl rfl (by decide) rfl

/-- Claim C7 (counterexample): a POST body whose JSON object carries the
truthy non-string prompt `5` is not answered with 400; the handler throws
a `TypeError` at the logging call (line 63) before any upstream call. -/
theorem truthy_nonstring_prompt_throws_not_400 :
    Json.parse "\x7b\"prompt\":5\x7d" = some (Json.objL [("prompt", Json.num 5)]) ∧
    (handler (some "key") (UpstreamOutcome.reply 200 "\x7b\x7d")
      ⟨"POST", "\x7b\"prompt\":5\x7d"⟩).result =
      Except.error "prompt.substring is not a function" ∧
    statusOf (handler (some "key") (UpstreamOutcome.reply 200 "\x7b\x7d")
      ⟨"POST", "\x7b\"prompt\":5\x7d"⟩) ≠ some 400 :=
  ⟨rfl, rfl, by decide⟩

/-- Claim C7 (amended): for every POST request whose body parses as a JSON
object whose `prompt` property is absent or falsy (missing, empty string,
`false`, `0`, `null`), the handler returns 400 without calling upstream. -/
theorem falsy_prompt_400_no_upstream (k : Option String) (u : UpstreamOutcome) (e : Event)
    (fs : JsonFields)
    (hm : e.httpMethod = "POST")
    (hb : Json.parse e.body = some (Json.obj fs))
    (hfalsy : jsTruthy (lookupField fs "prompt") = false) :
    handler k u e =
      ⟨Except.ok ⟨400, ctJson,
        errorBody "Bad request: \x27prompt\x27 is missing in the request body."⟩, false⟩ := by
  unfold handler
  rw [if_neg (fun hc => hc hm)]
  rw [hb]
  dsimp only [destructureProp]
  rw [if_pos hfalsy]

theorem falsy_prompt_400_no_upstream_witness :
    handler (some "key") (UpstreamOutcome.reply 200 "\x7b\x7d") ⟨"POST", "\x7b\"prompt\":\"\"\x7d"⟩ =
      ⟨Except.ok ⟨400, ctJson,
        errorBody "Bad request: \x27prompt\x27 is missing in the request body."⟩, false⟩ :=
  falsy_prompt_400_no_upstream (some "key") (UpstreamOutcome.reply 200 "\x7b\x7d")
    ⟨"POST", "\x7b\"prompt\":\"\"\x7d"⟩ (JsonFields.ofList [("prompt", Json.str "")]) rfl rfl rfl

/-- Claim C8: every outbound response the handler produces, on every path,
carries the header `Content-Type: application/json`. -/
theorem all_responses_json_content_type (k : Option String) (u : UpstreamOutcome) (e : Event)
    (r : Response) (h : (handler k u e).result = Except.ok r) :
    ("Content-Type", "application/json") ∈ r.headers := by
  unfold handler at h
  by_cases hm : e.httpMethod ≠ "POST"
  · rw [if_pos hm] at h
    dsimp only at h
    injection h with h2
    subst h2
    simp
  · rw [if_neg hm] at h
    rcases hb : Json.parse e.body with _ | rb
    · rw [hb] at h
      dsimp only at h
      injection h with h2
      subst h2
      simp [ctJson]
    · rw [hb] at h
      dsimp only at h
      rcases hd : destructureProp rb "prompt" with m | p
      · rw [hd] at h
        dsimp only at h
        simp at h
      · rw [hd] at h
        dsimp only at h
        by_cases ht : jsTruthy p = false
        · rw [if_pos ht] at h
          dsimp only at h
          injection h with h2
          subst h2
          simp [ctJson]
        · rw [if_neg ht] at h
          by_cases hk : falsyKey k = true
          · rw [if_pos hk] at h
            dsimp only at h
            injection h with h2
            subst h2
            simp [ctJson]
          · rw [if_neg hk] at h
            rcases p with _ | v
            · dsimp only at h
              simp at h
            · cases v with
              | null => dsimp only at h; simp at h
              | bool b => dsimp only at h; simp at h
              | num n => dsimp only at h; simp at h
              | str s =>
                dsimp only at h
                injection h with h2
                subst h2
                exact ct_mem_catch_try u
              | arr xs => dsimp only at h; simp at h
              | obj fs => dsimp only at h; simp at h

theorem all_responses_json_content_type_witness :
    ("Content-Type", "application/json") ∈
      (⟨405, [("Content-Type", "application/json"), ("Allow", "POST")],
        errorBody "Method Not Allowed. Please use POST."⟩ : Response).headers :=
  all_responses_json_content_type (some "key") (UpstreamOutcome.reply 200 "x") ⟨"GET", ""⟩
    ⟨405, [("Content-Type", "application/json"), ("Allow", "POST")],
      errorBody "Method Not Allowed. Please use POST."⟩ rfl

/-- Claim C9: whenever the upstream transport throws, the handler answers
500 with an `error` field equal to "Proxy function execution error: "
followed by the thrown error's message. -/
theorem transport_failure_500_proxy_error (k : Option String) (m : String) (e : Event)
    (hcall : (handler k (UpstreamOutcome.throw m) e).upstreamCalled = true) :
    statusOf (handler k (UpstreamOutcome.throw m) e) = some 500 ∧
    bodyField (handler k (UpstreamOutcome.throw m) e) "error" =
      some (Json.str ("Proxy function execution error: " ++ m)) := by
  have hr := reach_upstream k (UpstreamOutcome.throw m) e hcall
  constructor
  · unfold statusOf
    rw [hr]
    rfl
  · unfold bodyField
    rw [hr]
    rfl

theorem transport_failure_500_proxy_error_witness :
    statusOf (handler (some "key") (UpstreamOutcome.throw "connect ECONNREFUSED")
      ⟨"POST", "\x7b\"prompt\":\"hi\"\x7d"⟩) = some 500 ∧
    bodyField (handler (some "key") (UpstreamOutcome.throw "connect ECONNREFUSED")
      ⟨"POST", "\x7b\"prompt\":\"hi\"\x7d"⟩) "error" =
      some (Json.str ("Proxy function execution error: " ++ "connect ECONNREFUSED")) :=
  transport_failure_500_proxy_error (some "key") "connect ECONNREFUSED"
    ⟨"POST", "\x7b\"prompt\":\"hi\"\x7d"⟩ rfl

/-- Claim C10: every non-POST event is answered with 405, a body carrying
an `error` field, and no upstream call. -/
theorem non_post_405 (k : Option String) (u : UpstreamOutcome) (e : Event)
    (hm : e.httpMethod ≠ "POST") :
    handler k u e =
      ⟨Except.ok ⟨405, [("Content-Type", "application/json"), ("Allow", "POST")],
        errorBody "Method Not Allowed. Please use POST."⟩, false⟩ ∧
    bodyField (handler k u e) "error" = some (Json.str "Method Not Allowed. Please use POST.") := by
  have hh : handler k u e =
      ⟨Except.ok ⟨405, [("Content-Type", "application/json"), ("Allow", "POST")],
        errorBody "Method Not Allowed. Please use POST."⟩, false⟩ := by
    unfold handler
    rw [if_pos hm]
  exact ⟨hh, by rw [hh]; rfl⟩

theorem non_post_405_witness :
    handler (some "key") (UpstreamOutcome.reply 200 "x") ⟨"GET", ""⟩ =
      ⟨Except.ok ⟨405, [("Content-Type", "application/json"), ("Allow", "POST")],
        errorBody "Method Not Allowed. Please use POST."⟩, false⟩ ∧
    bodyField (handler (some "key") (UpstreamOutcome.reply 200 "x") ⟨"GET", ""⟩) "error" =
      some (Json.str "Method Not Allowed. Please use POST.") :=
  non_post_405 (some "key") (UpstreamOutcome.reply 200 "x") ⟨"GET", ""⟩ (by decide)
